import Mathlib

/-!
Shallow embedding of the event-streaming pipeline of the repository
(`src/src/app/services/kafka_consumer.py`, `src/src/adapter/services/kafka_consumer.py`,
`src/src/adapter/services/kafka_producer.py`, `src/src/adapter/services/cache_backend.py`).

Python dictionaries / JSON values are modelled by `PyVal`; exceptions by
`Except` with the error type `Exc` carrying the exception class that the
consume loop dispatches on.  External collaborators (the aiokafka client,
`json.loads`, the registered handlers, filters and callbacks, the redis
connection) are parameters of the embedded functions.  Each embedded
operation additionally returns a trace of the observable actions it
performed (sends, sleeps, commits, handler invocations, log calls), in
order; the verified properties are stated over these traces.  Valid byte
strings are modelled by their UTF-8 decoding (`PyVal.bytes`), byte strings
that are not valid UTF-8 by `PyVal.badBytes`; the decoding of a record
*value* (`json.loads(body.decode("utf-8"))`) is kept abstract as the
`jsonLoads` parameter, whose failure covers both `UnicodeDecodeError` and
`JSONDecodeError`.

A central fact of this code base: Python mangles a `__name` attribute read
inside a class body to `_ClassName__name`.  `BackendKafkaConsumer.listen`
and `BackendKafkaConsumer._create_header` read `self.__started`,
`self.__event_root_mapper_service` and `self.__topic`, i.e. the names
`_BackendKafkaConsumer__started` etc.; the only constructor
(`AIOKafkaConsumerImplementation.__init__`) stores the
`_AIOKafkaConsumerImplementation__*` names instead, so those reads raise
`AttributeError` at run time.  The embedding models instance-attribute
lookup against the attribute names the constructor actually sets
(`consumerInstanceAttrs` / `getattrConsumer`), so `listen` raises before
entering its loop and the success path of the loop body raises before its
commit; the loop body itself is embedded as written, as the object the
claims quantify over.
-/

/-- A Python/JSON value as it occurs in this code base.  `bytes s` is a
byte string that is valid UTF-8 and decodes to `s`; `badBytes tag` is a
byte string that is NOT valid UTF-8 (hence non-empty, since the empty byte
string is valid UTF-8), identified by `tag`. -/
inductive PyVal where
  | none
  | bool (b : Bool)
  | int (n : Int)
  | str (s : String)
  | bytes (s : String)
  | badBytes (tag : String)
  | dict (entries : List (String × PyVal))
  | pylist (xs : List PyVal)

/-- Python truthiness (`if not x`) for the values above. -/
def pyTruthy : PyVal → Bool
  | PyVal.none => false
  | PyVal.bool b => b
  | PyVal.int n => if n = 0 then false else true
  | PyVal.str s => !s.isEmpty
  | PyVal.bytes s => !s.isEmpty
  | PyVal.badBytes _ => true
  | PyVal.dict es => !es.isEmpty
  | PyVal.pylist xs => !xs.isEmpty

/-- First-match lookup in an association list (keys are unique after
`pyDictOf`, so this agrees with Python dict access). -/
def lookupStr (k : String) : List (String × PyVal) → Option PyVal
  | [] => Option.none
  | (k2, v) :: rest => if k2 = k then Option.some v else lookupStr k rest

/-- Python `dict(pairs)`: insertion order, later values for the same key win. -/
def pyDictOf (pairs : List (String × PyVal)) : List (String × PyVal) :=
  pairs.foldl
    (fun acc kv =>
      if acc.any (fun p => p.fst = kv.fst) then
        acc.map (fun p => if p.fst = kv.fst then kv else p)
      else acc ++ [kv])
    []

/-- `isinstance(x, dict)`. -/
def pyIsDict : PyVal → Bool
  | PyVal.dict _ => true
  | _ => false

/-- Python `k in d` for a dict (only used behind an `isinstance` guard). -/
def pyContains (v : PyVal) (k : String) : Bool :=
  match v with
  | PyVal.dict es => es.any (fun p => p.fst = k)
  | _ => false

/-- Python `d.get(k)` at call sites where the receiver is known to be a dict
(returns `None` when the key is absent). -/
def pyGet (v : PyVal) (k : String) : PyVal :=
  match v with
  | PyVal.dict es => (lookupStr k es).getD PyVal.none
  | _ => PyVal.none

/-- Exception classes relevant to the consume loop.  `invalidMessage` is
`InvalidMessageException` (a subclass of `SkippableException`), `skippable`
is `SkippableException`, `critical` is `CriticalException`, and `other`
stands for any unclassified exception (e.g. `AttributeError`). -/
inductive Exc where
  | invalidMessage (m : String)
  | skippable (m : String)
  | critical (m : String)
  | other (m : String)

/-- The message carried by an exception. -/
def Exc.msg : Exc → String
  | Exc.invalidMessage m => m
  | Exc.skippable m => m
  | Exc.critical m => m
  | Exc.other m => m

/-- Whether `except SkippableException` catches this exception
(`InvalidMessageException` is a subclass of `SkippableException`). -/
def Exc.isSkippable : Exc → Bool
  | Exc.invalidMessage _ => true
  | Exc.skippable _ => true
  | _ => false

/-- Whether `except CriticalException` catches this exception. -/
def Exc.isCritical : Exc → Bool
  | Exc.critical _ => true
  | _ => false

/-- Python `d.get(k)` on a value that may not be a dict: attribute access on
a non-dict raises `AttributeError` (an unclassified exception). -/
def pyGetAttr (v : PyVal) (k : String) : Except Exc PyVal :=
  match v with
  | PyVal.dict es => Except.ok ((lookupStr k es).getD PyVal.none)
  | _ => Except.error (Exc.other "AttributeError")

/-- Python dict assignment `d[k] = x` (only reached behind an `isinstance`
guard, so the non-dict branch is inert). -/
def pySet (v : PyVal) (k : String) (x : PyVal) : PyVal :=
  match v with
  | PyVal.dict es =>
    if es.any (fun p => p.fst = k) then
      PyVal.dict (es.map (fun p => if p.fst = k then (k, x) else p))
    else PyVal.dict (es ++ [(k, x)])
  | w => w

/-!
Consumer-side data model (`AIOKafkaConsumerImplementation` /
`BackendKafkaConsumer`).
-/

/-- A Kafka topic partition, as used for commits. -/
structure TopicPartition where
  topic : String
  partNum : Nat

/-- A record as returned by `consumer.getmany`: raw value bytes, optional key
bytes, offset and headers (byte values modelled by their UTF-8 decoding). -/
structure KRecord where
  value : String
  key : Option String
  offset : Nat
  headers : List (String × PyVal)

/-- The `meta_data` dict built by `_get_new_event` (fields may in principle
be `None`, which `_commit_event` checks for). -/
structure MetaData where
  offset : Option Nat
  key : Option String
  topic_partition : Option TopicPartition

/-- The dict returned by `_get_new_event` on a successful poll. -/
structure ConsumedEvent where
  event : PyVal
  meta_data : MetaData
  headers : Option (List (String × PyVal))

/-- Observable actions of the consume loop, in execution order. -/
inductive ConsAction where
  | poll
  | logPollError (m : String)
  | logDecodeError (m : String)
  | decodeValue
  | sleepShort
  | createHeader
  | filterCall
  | beforeCall
  | handlerCall (event : PyVal)
  | afterCall
  | commitCall (tp : TopicPartition) (target : Nat)
  | logCommitted
  | logCommitError
  | commitMissing

/-- The instance-attribute names stored by
`AIOKafkaConsumerImplementation.__init__` (lines 53-66 and 80), after Python
name mangling: a `__name` attribute assigned inside that class body becomes
`_AIOKafkaConsumerImplementation__name`.  No other code assigns attributes
on the instance before `listen` runs. -/
def consumerInstanceAttrs : List String :=
  ["_AIOKafkaConsumerImplementation__topic",
   "_AIOKafkaConsumerImplementation__group_id",
   "handlers",
   "_filters",
   "_before_handle_callback",
   "_after_handle_callback",
   "_AIOKafkaConsumerImplementation__event_root_mapper_service",
   "_mongo_connected",
   "stopped",
   "_body",
   "_headers",
   "_AIOKafkaConsumerImplementation__started",
   "_AIOKafkaConsumerImplementation__consumer"]

/-- The name `self.__started` mangles to inside `BackendKafkaConsumer`
(`listen`, line 115). -/
def mangledStartedAttr : String := "_BackendKafkaConsumer__started"

/-- The name `self.__event_root_mapper_service` mangles to inside
`BackendKafkaConsumer` (`_create_header` line 79, `listen` line 150). -/
def mangledMapperAttr : String := "_BackendKafkaConsumer__event_root_mapper_service"

/-- The `AttributeError` raised by reading a missing instance attribute. -/
def attributeError (name : String) : Exc :=
  Exc.other ("AttributeError: " ++ name)

/-- Reading `self.<name>` on a consumer instance: succeeds exactly when the
constructor stored that (mangled) name, raises `AttributeError` otherwise. -/
def getattrConsumer (name : String) : Except Exc Unit :=
  if consumerInstanceAttrs.contains name then Except.ok ()
  else Except.error (attributeError name)

/-- The collaborators a consumer instance is constructed with: the topic, the
filter chain, optional before/after-handle callbacks, the registered
handlers' `handle`, the flag `self._mongo_connected` (whether an
event-root-mapper service was passed to the constructor), and the backing
`consumer.commit` call (whose outcome is external).  The mapper service
object itself is NOT a collaborator of the embedded methods: every read of
`self.__event_root_mapper_service` in the base class resolves to the
missing mangled name and raises before the service could be called. -/
structure ConsumerEnv where
  topic : String
  filters : List (PyVal → Except Exc Unit)
  beforeHandle : Option (PyVal → Except Exc PyVal)
  afterHandle : Option (PyVal → Except Exc Unit)
  handle : PyVal → Except Exc Unit
  mongoConnected : Bool
  commitBackend : TopicPartition → Nat → Except String Unit

/-- `header_value.decode("utf-8")` applied when
`isinstance(header_value, bytes)` (line 106-109): a byte value that is not
valid UTF-8 raises `UnicodeDecodeError` (an unclassified exception);
non-byte values pass through unchanged. -/
def decodeHeaderVal : PyVal → Except Exc PyVal
  | PyVal.bytes s => Except.ok (PyVal.str s)
  | PyVal.badBytes tag => Except.error (Exc.other ("UnicodeDecodeError: " ++ tag))
  | v => Except.ok v

/-- The `for key in [...]` loop of `_decode_headers`: keys are processed in
order, and the first failing byte decode aborts with its exception. -/
def decode_header_entries (keys : List String) (headers : List (String × PyVal)) :
    Except Exc (List (String × PyVal)) :=
  match keys with
  | [] => Except.ok []
  | k :: ks =>
    match lookupStr k headers with
    | Option.none => decode_header_entries ks headers
    | Option.some v =>
      match decodeHeaderVal v with
      | Except.error e => Except.error e
      | Except.ok w =>
        match decode_header_entries ks headers with
        | Except.error e => Except.error e
        | Except.ok rest => Except.ok ((k, w) :: rest)

/-- `BackendKafkaConsumer._decode_headers`: extract the tracing triple from
the header dict, decoding byte values; a `UnicodeDecodeError` from a header
value propagates (the caller catches only `KeyError` around this call). -/
def decode_headers (headers : List (String × PyVal)) : Except Exc PyVal :=
  if headers.isEmpty then Except.ok (PyVal.dict [])
  else
    match decode_header_entries ["root_id", "parent_id", "event_id"] headers with
    | Except.error e => Except.error e
    | Except.ok es => Except.ok (PyVal.dict es)

/-- `BackendKafkaConsumer._create_header`: decode the headers and build the
log header (`self._headers`).  The first `try` catches only `KeyError`
(a dead guard: `_decode_headers` checks membership before every access), so
a `UnicodeDecodeError` from a header value escapes raw.  In the second
`try`, when `self._mongo_connected` holds and the decoded headers are falsy,
line 79 evaluates `not log_header and self.__event_root_mapper_service`:
the `and` short-circuits only on a truthy `log_header`, so here the mangled
attribute is read and raises `AttributeError`, which `except Exception`
wraps into an `InvalidMessageException`; the mapper service is never
called.  With truthy decoded headers the attribute is never read and the
tracing triple is built with `.get`. -/
def create_header (mongoConnected : Bool)
    (headers : Option (List (String × PyVal))) : Except Exc PyVal :=
  match decode_headers (pyDictOf (headers.getD [])) with
  | Except.error e => Except.error e
  | Except.ok decoded =>
    let body : Except Exc PyVal :=
      if !mongoConnected then Except.ok decoded
      else
        if !pyTruthy decoded then
          match getattrConsumer mangledMapperAttr with
          | Except.error e => Except.error e
          | Except.ok _ => Except.ok decoded
        else
          Except.ok (PyVal.dict
            [("root_id", pyGet decoded "root_id"),
             ("parent_id", pyGet decoded "parent_id"),
             ("event_id", pyGet decoded "event_id")])
    match body with
    | Except.ok h => Except.ok h
    | Except.error e => Except.error (Exc.invalidMessage ("Error creating header: " ++ e.msg))

/-- `AIOKafkaConsumerImplementation._filter_event`: apply each filter in
order; the first filter that raises aborts the chain. -/
def filter_event (filters : List (PyVal → Except Exc Unit)) (event : PyVal) :
    List ConsAction × Except Exc Unit :=
  match filters with
  | [] => ([], Except.ok ())
  | f :: rest =>
    match f event with
    | Except.error e => ([ConsAction.filterCall], Except.error e)
    | Except.ok _ =>
      let r := filter_event rest event
      (ConsAction.filterCall :: r.1, r.2)

/-- The value the event holds after the optional `before_handle_callback`. -/
def beforeResult (env : ConsumerEnv) (event : PyVal) : Except Exc PyVal :=
  match env.beforeHandle with
  | Option.some f => f event
  | Option.none => Except.ok event

/-- The trace contribution of the optional before-handle callback. -/
def beforeTrace (env : ConsumerEnv) : List ConsAction :=
  match env.beforeHandle with
  | Option.some _ => [ConsAction.beforeCall]
  | Option.none => []

/-- The `try` body of `AIOKafkaConsumerImplementation._handle_event`:
filters, optional before-handle transform, `event_type` presence check,
handler dispatch, optional after-handle callback. -/
def handle_event_try (env : ConsumerEnv) (event : PyVal) :
    List ConsAction × Except Exc Unit :=
  match filter_event env.filters event with
  | (ftr, Except.error e) => (ftr, Except.error e)
  | (ftr, Except.ok _) =>
    match beforeResult env event with
    | Except.error e => (ftr ++ beforeTrace env, Except.error e)
    | Except.ok event2 =>
      match pyGetAttr event2 "event_type" with
      | Except.error e => (ftr ++ beforeTrace env, Except.error e)
      | Except.ok et =>
        if !pyTruthy et then
          (ftr ++ beforeTrace env,
           Except.error (Exc.invalidMessage "Missing event_type in message"))
        else
          match env.handle event2 with
          | Except.error e =>
            (ftr ++ beforeTrace env ++ [ConsAction.handlerCall event2], Except.error e)
          | Except.ok _ =>
            match env.afterHandle with
            | Option.some g =>
              match g event2 with
              | Except.error e =>
                (ftr ++ beforeTrace env
                   ++ [ConsAction.handlerCall event2, ConsAction.afterCall],
                 Except.error e)
              | Except.ok _ =>
                (ftr ++ beforeTrace env
                   ++ [ConsAction.handlerCall event2, ConsAction.afterCall],
                 Except.ok ())
            | Option.none =>
              (ftr ++ beforeTrace env ++ [ConsAction.handlerCall event2], Except.ok ())

/-- The `except` clauses of `_handle_event`: skippable and critical
exceptions are re-raised unchanged, every other exception is promoted to a
`CriticalException`. -/
def promote (e : Exc) : Exc :=
  if e.isSkippable then e
  else if e.isCritical then e
  else Exc.critical ("Unexpected error: " ++ e.msg)

/-- `AIOKafkaConsumerImplementation._handle_event`. -/
def handle_event (env : ConsumerEnv) (event : PyVal) :
    List ConsAction × Except Exc Unit :=
  match handle_event_try env event with
  | (tr, Except.error e) => (tr, Except.error (promote e))
  | (tr, Except.ok u) => (tr, Except.ok u)

/-- The scan over the polled batch inside `_get_new_event`: partitions with
an empty message list are skipped; the first message of the first non-empty
partition is decoded and wrapped.  A decoding failure (`UnicodeDecodeError`
or `JSONDecodeError`) is logged and makes the whole call return the empty
dict. -/
def scan_batch (jsonLoads : String → Except String PyVal) :
    List (TopicPartition × List KRecord) → List ConsAction × Option ConsumedEvent
  | [] => ([], Option.none)
  | (_, []) :: rest => scan_batch jsonLoads rest
  | (tp, record :: _) :: _ =>
    match jsonLoads record.value with
    | Except.error e => ([ConsAction.logDecodeError e], Option.none)
    | Except.ok message =>
      let key : Option String :=
        match record.key with
        | Option.some k => if k.isEmpty then Option.none else Option.some k
        | Option.none => Option.none
      let message2 :=
        if pyIsDict message && pyContains message "event_type"
            && pyContains message "payload" then
          pySet message "key"
            (match key with
             | Option.some s => PyVal.str s
             | Option.none => PyVal.none)
        else message
      ([ConsAction.decodeValue],
       Option.some
         { event := message2,
           meta_data :=
             { offset := Option.some record.offset,
               key := key,
               topic_partition := Option.some tp },
           headers := Option.some record.headers })

/-- `AIOKafkaConsumerImplementation._get_new_event`: poll for a batch; any
exception raised while polling or reading the batch is caught, logged and
mapped to the empty dict (modelled as `Option.none`), as is an empty batch.
The poll outcome itself (a batch, or an exception from the transport) is the
`pollResult` input. -/
def get_new_event (jsonLoads : String → Except String PyVal)
    (pollResult : Except String (List (TopicPartition × List KRecord))) :
    List ConsAction × Option ConsumedEvent :=
  match pollResult with
  | Except.error e => ([ConsAction.poll, ConsAction.logPollError e], Option.none)
  | Except.ok batch =>
    if batch.isEmpty then ([ConsAction.poll], Option.none)
    else
      match scan_batch jsonLoads batch with
      | (str, r) => (ConsAction.poll :: str, r)

/-- `AIOKafkaConsumerImplementation._commit_event`: commit `offset + 1` for
the consumed topic partition; a missing partition or offset is logged, and a
failing backend commit is caught and logged, never retried and never
re-raised. -/
def commit_event (env : ConsumerEnv) (ev : ConsumedEvent) : List ConsAction :=
  match ev.meta_data.topic_partition, ev.meta_data.offset with
  | Option.some tp, Option.some off =>
    match env.commitBackend tp (off + 1) with
    | Except.ok _ => [ConsAction.commitCall tp (off + 1), ConsAction.logCommitted]
    | Except.error _ => [ConsAction.commitCall tp (off + 1), ConsAction.logCommitError]
  | _, _ => [ConsAction.commitMissing]

/-- The `try` block of one `listen` iteration: `_create_header` followed by
`_handle_event`; on success the header that was stored in `self._headers` is
returned for the save-header step. -/
def try_block (env : ConsumerEnv) (event_data : PyVal)
    (headers : Option (List (String × PyVal))) :
    List ConsAction × Except Exc PyVal :=
  match create_header env.mongoConnected headers with
  | Except.error e => ([ConsAction.createHeader], Except.error e)
  | Except.ok hdr =>
    match handle_event env event_data with
    | (htr, Except.error e) => (ConsAction.createHeader :: htr, Except.error e)
    | (htr, Except.ok _) => (ConsAction.createHeader :: htr, Except.ok hdr)

/-- The `else` clause of a `listen` iteration (lines 150-158).  Its first
statement, `if self.__event_root_mapper_service:`, reads the mangled name
`_BackendKafkaConsumer__event_root_mapper_service`, which the constructor
never sets, so the read raises `AttributeError` unconditionally — before
`save_header`, the mangled `self.__topic`, or the commit at line 160 are
reached.  The `else` clause is outside the `except` handlers of the `try`
statement, so this exception escapes `listen` uncaught.  The `Except.ok`
branch is unreachable (`mangledMapperAttr` is not among
`consumerInstanceAttrs`); the two arguments are the header and event values
lines 151-157 would consume. -/
def persist_step (_hdr : PyVal) (_event_data : PyVal) :
    List ConsAction × Except Exc Unit :=
  match getattrConsumer mangledMapperAttr with
  | Except.error e => ([], Except.error e)
  | Except.ok _ => ([], Except.ok ())

/-- One iteration of the `while not self.stopped` loop BODY in
`BackendKafkaConsumer.listen` (lines 120-163), given the outcome of this
iteration's poll: an empty result sleeps briefly and continues; otherwise
the try block runs, a skippable failure commits and continues, a critical
failure is re-raised, and on success the `else` clause runs before the
commit — and raises `AttributeError` via `persist_step`, uncaught, so the
success-path commit at line 160 is unreachable.  In the program the whole
loop is unreachable: `listen` raises at entry (see `listen` below). -/
def listen_iteration (env : ConsumerEnv) (jsonLoads : String → Except String PyVal)
    (pollResult : Except String (List (TopicPartition × List KRecord))) :
    List ConsAction × Option Exc :=
  match get_new_event jsonLoads pollResult with
  | (gtr, Option.none) => (gtr ++ [ConsAction.sleepShort], Option.none)
  | (gtr, Option.some ev) =>
    match try_block env ev.event ev.headers with
    | (ttr, Except.error e) =>
      if e.isSkippable then (gtr ++ ttr ++ commit_event env ev, Option.none)
      else (gtr ++ ttr, Option.some e)
    | (ttr, Except.ok hdr) =>
      match persist_step hdr ev.event with
      | (ptr, Except.error e) => (gtr ++ ttr ++ ptr, Option.some e)
      | (ptr, Except.ok _) =>
        (gtr ++ ttr ++ ptr ++ commit_event env ev, Option.none)

/-- The `while not self.stopped` loop of `BackendKafkaConsumer.listen`
(lines 120-163) as written, run against a finite script of poll outcomes
(the script ending models the stop flag being observed).  An exception
escaping an iteration terminates the loop immediately with that exception.
This loop is reachable only through `listen`, which raises before entering
it: the loop body is embedded as the object the per-record claims quantify
over. -/
def listen_loop (env : ConsumerEnv) (jsonLoads : String → Except String PyVal) :
    List (Except String (List (TopicPartition × List KRecord))) →
    List ConsAction × Option Exc
  | [] => ([], Option.none)
  | p :: ps =>
    match listen_iteration env jsonLoads p with
    | (tr, Option.some e) => (tr, Option.some e)
    | (tr, Option.none) =>
      match listen_loop env jsonLoads ps with
      | (tr2, r2) => (tr ++ tr2, r2)

/-- `BackendKafkaConsumer.listen`: its first statement (line 115),
`if not self.__started:`, reads the mangled name
`_BackendKafkaConsumer__started`, which the constructor never sets — the
subclass stores `_AIOKafkaConsumerImplementation__started` — so every call
raises `AttributeError` before anything is polled; the loop is dead code.
The `Except.ok` branch is unreachable (`mangledStartedAttr` is not among
`consumerInstanceAttrs`). -/
def listen (env : ConsumerEnv) (jsonLoads : String → Except String PyVal)
    (script : List (Except String (List (TopicPartition × List KRecord)))) :
    List ConsAction × Option Exc :=
  match getattrConsumer mangledStartedAttr with
  | Except.error e => ([], Option.some e)
  | Except.ok _ => listen_loop env jsonLoads script

/-!
Producer-side embedding (`AIOKafkaProducerImplementation.publish`).  The
configuration constants `MAX_RETRY` and `RETRY_DELAY` (module `constant`,
not part of the sources) are kept as parameters, matching the constructor
fields `self.__max_retry` and `self.__delay`.
-/

/-- Outcome of one `producer.send` + `await future` round trip.
`transientErr` covers `KafkaTimeoutError`, `KafkaConnectionError` and
`ConnectionResetError`; `otherErr` any other exception. -/
inductive SendOutcome where
  | ok (partNum : Nat) (offset : Nat)
  | transientErr (e : String)
  | otherErr (e : String)

/-- The message envelope built on each loop iteration of `publish`. -/
structure Envelope where
  event_type : String
  payload : PyVal
  issued_at : Nat

/-- Observable actions of `publish`. -/
inductive ProdAction where
  | send (msg : Envelope) (key : Option String)
  | sleepRetry (delay : Nat)

/-- `KafkaPublishMessageFailed`. -/
inductive PublishError where
  | publishFailed (m : String)

/-- The envelope dict literal inside the retry loop
(`event_type or ""`, `payload or {}`, the `issued_at` fixed at entry). -/
def buildEnvelope (event_type : String) (payload : PyVal) (issued_at : Nat) :
    Envelope :=
  { event_type := if event_type.isEmpty then "" else event_type,
    payload := if pyTruthy payload then payload else PyVal.dict [],
    issued_at := issued_at }

/-- `key.encode("utf-8") if key else None` (an empty key is falsy). -/
def keyFormatted (key : Option String) : Option String :=
  match key with
  | Option.some k => if k.isEmpty then Option.none else Option.some k
  | Option.none => Option.none

/-- `issued_at` defaulting: `if not issued_at: issued_at = datetime.now(...)`. -/
def issuedOf (issued_at : Option Nat) (now : Nat) : Nat :=
  match issued_at with
  | Option.some t => t
  | Option.none => now

/-- The `while True` retry loop of `publish`.  `send` gives the broker's
response to the n-th send attempt, `dumps` models
`json.dumps(message, default=json_serial)`.  A transient error retries after
a fixed `delay` while `retry_count < max_retry`, and raises
`KafkaPublishMessageFailed` once `retry_count >= max_retry`; any other
exception raises immediately without a retry. -/
def publish_loop (send : Nat → SendOutcome) (dumps : Envelope → Except String String)
    (event_type : String) (payload : PyVal) (issued_at : Nat) (key : Option String)
    (maxRetry delay : Nat) (attempt retryCount : Nat) :
    List ProdAction × Except PublishError Unit :=
  let message := buildEnvelope event_type payload issued_at
  let key_formatted := keyFormatted key
  match dumps message with
  | Except.error e =>
    ([], Except.error (PublishError.publishFailed ("Unexpected error sending message: " ++ e)))
  | Except.ok _ =>
    match send attempt with
    | SendOutcome.ok _ _ => ([ProdAction.send message key_formatted], Except.ok ())
    | SendOutcome.otherErr e =>
      ([ProdAction.send message key_formatted],
       Except.error (PublishError.publishFailed ("Unexpected error sending message: " ++ e)))
    | SendOutcome.transientErr e =>
      if h : retryCount ≥ maxRetry then
        ([ProdAction.send message key_formatted],
         Except.error (PublishError.publishFailed ("Failed to send message after retries: " ++ e)))
      else
        let next :=
          publish_loop send dumps event_type payload issued_at key maxRetry delay
            (attempt + 1) (retryCount + 1)
        (ProdAction.send message key_formatted :: ProdAction.sleepRetry delay :: next.1,
         next.2)
  termination_by maxRetry + 1 - retryCount
  decreasing_by omega

/-- `AIOKafkaProducerImplementation.publish`: resolve `issued_at`, then run
the retry loop with `retry_count = 0`. -/
def publish (send : Nat → SendOutcome) (dumps : Envelope → Except String String)
    (event_type : String) (payload : PyVal) (key : Option String)
    (issued_at : Option Nat) (now maxRetry delay : Nat) :
    List ProdAction × Except PublishError Unit :=
  publish_loop send dumps event_type payload (issuedOf issued_at now) key
    maxRetry delay 0 0

/-!
Cache-client embedding (`RetryingRedis.execute_command`,
`RedisCacheBackend.get`).
-/

/-- Outcome of one `super().execute_command(*args)` call.  `redisErr` covers
`exceptions.ConnectionError`, `exceptions.TimeoutError` and
`exceptions.RedisError`; `otherErr` is any other exception (uncaught). -/
inductive CmdOutcome where
  | ok (v : PyVal)
  | redisErr (e : String)
  | otherErr (e : String)

/-- Observable actions of `execute_command`. -/
inductive CacheAction where
  | call (args : List String) (attempt : Nat)
  | sleepBackoff (delay : Nat)

/-- `self._max_retries` as set in `RetryingRedis.__init__`. -/
def RetryingRedis_maxRetries : Nat := 3

/-- The `while True` loop of `RetryingRedis.execute_command`: on a transient
redis error the retry count is incremented; once it exceeds `maxRetries` the
call returns the sentinel `False` (no exception), otherwise it sleeps
`2 ^ (retry_count - 1)` and retries. -/
def execute_command_loop (run : List String → Nat → CmdOutcome) (args : List String)
    (maxRetries : Nat) (attempt retryCount : Nat) :
    List CacheAction × Except String PyVal :=
  match run args attempt with
  | CmdOutcome.ok v => ([CacheAction.call args attempt], Except.ok v)
  | CmdOutcome.otherErr e => ([CacheAction.call args attempt], Except.error e)
  | CmdOutcome.redisErr _ =>
    if h : retryCount + 1 > maxRetries then
      ([CacheAction.call args attempt], Except.ok (PyVal.bool false))
    else
      let next := execute_command_loop run args maxRetries (attempt + 1) (retryCount + 1)
      (CacheAction.call args attempt
         :: CacheAction.sleepBackoff (2 ^ (retryCount + 1 - 1)) :: next.1,
       next.2)
  termination_by maxRetries + 1 - retryCount
  decreasing_by omega

/-- `RetryingRedis.execute_command` with `self._retry_count = 0`. -/
def execute_command (run : List String → Nat → CmdOutcome) (args : List String) :
    List CacheAction × Except String PyVal :=
  execute_command_loop run args RetryingRedis_maxRetries 0 0

/-- `RedisCacheBackend.get`: `await self.redis_client.get(key)`; the redis
client's `get` dispatches through `execute_command` with the GET command. -/
def cache_get (run : List String → Nat → CmdOutcome) (key : String) :
    List CacheAction × Except String PyVal :=
  execute_command run ["GET", key]

/-!
Concrete instances used by witnesses and counterexamples.
-/

/-- A concrete topic partition. -/
def tpW : TopicPartition := { topic := "users", partNum := 0 }

/-- A concrete well-formed record at offset 41. -/
def recW : KRecord :=
  { value := "m1", key := Option.none, offset := 41,
    headers := [("root_id", PyVal.bytes "r1")] }

/-- A concrete record whose value does not decode. -/
def recBad : KRecord :=
  { value := "xx", key := Option.none, offset := 7, headers := [] }

/-- A concrete decoder: "m1" decodes to a structured event, everything else
fails to decode. -/
def jsonW : String → Except String PyVal := fun s =>
  if s = "m1" then
    Except.ok (PyVal.dict
      [("event_type", PyVal.str "user.created"),
       ("payload", PyVal.dict [("id", PyVal.str "u1")])])
  else Except.error "Expecting value"

/-- A poll returning one well-formed record. -/
def pollW : Except String (List (TopicPartition × List KRecord)) :=
  Except.ok [(tpW, [recW])]

/-- A poll returning one undecodable record. -/
def pollBad : Except String (List (TopicPartition × List KRecord)) :=
  Except.ok [(tpW, [recBad])]

/-- The decoded event of `recW` after key injection. -/
def evW2 : PyVal :=
  PyVal.dict
    [("event_type", PyVal.str "user.created"),
     ("payload", PyVal.dict [("id", PyVal.str "u1")]),
     ("key", PyVal.none)]

/-- The consumed record built by `_get_new_event` from `pollW`. -/
def evW : ConsumedEvent :=
  { event := evW2,
    meta_data :=
      { offset := Option.some 41, key := Option.none,
        topic_partition := Option.some tpW },
    headers := Option.some [("root_id", PyVal.bytes "r1")] }

/-- A consumer with no filters, no callbacks, no mapper service and an
always-succeeding handler and commit backend. -/
def baseEnvW : ConsumerEnv :=
  { topic := "users", filters := [], beforeHandle := Option.none,
    afterHandle := Option.none, handle := fun _ => Except.ok (),
    mongoConnected := false, commitBackend := fun _ _ => Except.ok () }

/-- The base consumer with a single always-passing filter. -/
def oneFilterEnvW : ConsumerEnv :=
  { baseEnvW with filters := [fun _ => Except.ok ()] }


/-!
Trace predicates and structural lemmas.
-/

/-- The action is a backend commit invocation. -/
def isCommitA : ConsAction → Bool
  | ConsAction.commitCall _ _ => true
  | _ => false

/-- The action is a business-handler invocation. -/
def isHandlerA : ConsAction → Bool
  | ConsAction.handlerCall _ => true
  | _ => false

/-- The action is a filter invocation. -/
def isFilterA : ConsAction → Bool
  | ConsAction.filterCall => true
  | _ => false

/-- The action is the header-creation (trace-decoding) step. -/
def isCreateHeaderA : ConsAction → Bool
  | ConsAction.createHeader => true
  | _ => false

/-- The action is a producer send attempt. -/
def isSendA : ProdAction → Bool
  | ProdAction.send _ _ => true
  | _ => false

/-- The action is a producer backoff sleep. -/
def isSleepRetryA : ProdAction → Bool
  | ProdAction.sleepRetry _ => true
  | _ => false

theorem filter_event_trace (fs : List (PyVal → Except Exc Unit)) (ev : PyVal) :
    ∃ n, (filter_event fs ev).1 = List.replicate n ConsAction.filterCall := by
  induction fs with
  | nil => exact ⟨0, rfl⟩
  | cons f rest ih =>
    cases hf : f ev with
    | error e => exact ⟨1, by simp [filter_event, hf, List.replicate]⟩
    | ok u =>
      obtain ⟨n, hn⟩ := ih
      exact ⟨n + 1, by simp [filter_event, hf, hn, List.replicate_succ]⟩

theorem filter_event_ok_trace (fs : List (PyVal → Except Exc Unit)) (ev : PyVal)
    (tr : List ConsAction) (h : filter_event fs ev = (tr, Except.ok ())) :
    tr = List.replicate fs.length ConsAction.filterCall := by
  induction fs generalizing tr with
  | nil => simp [filter_event] at h; simp [h]
  | cons f rest ih =>
    cases hf : f ev with
    | error e => simp [filter_event, hf] at h
    | ok u =>
      simp [filter_event, hf] at h
      obtain ⟨htr, hres⟩ := h
      rcases hr : filter_event rest ev with ⟨tr2, r2⟩
      rw [hr] at htr hres
      simp at htr hres
      cases r2 with
      | error e2 => simp at hres
      | ok u2 =>
        rw [List.length_cons, List.replicate_succ, ← htr]
        simp [ih tr2 (by rw [hr])]

theorem countP_replicate_filterCall (p : ConsAction → Bool) (n : Nat)
    (hp : p ConsAction.filterCall = false) :
    (List.replicate n ConsAction.filterCall).countP p = 0 := by
  induction n with
  | zero => rfl
  | succ m ih => simp [List.replicate_succ, List.countP_cons, ih, hp]

theorem beforeTrace_no_commit (env : ConsumerEnv) :
    (beforeTrace env).countP isCommitA = 0 := by
  unfold beforeTrace; cases env.beforeHandle <;> rfl

theorem beforeTrace_no_handler (env : ConsumerEnv) :
    (beforeTrace env).countP isHandlerA = 0 := by
  unfold beforeTrace; cases env.beforeHandle <;> rfl

theorem filter_event_no_commit (fs : List (PyVal → Except Exc Unit)) (ev : PyVal) :
    (filter_event fs ev).1.countP isCommitA = 0 := by
  obtain ⟨n, hf⟩ := filter_event_trace fs ev
  rw [hf]; exact countP_replicate_filterCall _ _ rfl

theorem filter_event_no_handler (fs : List (PyVal → Except Exc Unit)) (ev : PyVal) :
    (filter_event fs ev).1.countP isHandlerA = 0 := by
  obtain ⟨n, hf⟩ := filter_event_trace fs ev
  rw [hf]; exact countP_replicate_filterCall _ _ rfl

theorem handle_event_try_no_commit (env : ConsumerEnv) (ev : PyVal) :
    (handle_event_try env ev).1.countP isCommitA = 0 := by
  have hfc := filter_event_no_commit env.filters ev
  have hbc := beforeTrace_no_commit env
  rcases hfe : filter_event env.filters ev with ⟨ftr, fres⟩
  rw [hfe] at hfc
  unfold handle_event_try
  rw [hfe]
  cases fres with
  | error e => simpa using hfc
  | ok u =>
    cases u
    cases hbr : beforeResult env ev with
    | error e => simp [hbr, List.countP_append, hfc, hbc]
    | ok ev2 =>
      cases hga : pyGetAttr ev2 "event_type" with
      | error e => simp [hbr, hga, List.countP_append, hfc, hbc]
      | ok et =>
        cases ht : pyTruthy et with
        | false => simp [hbr, hga, ht, List.countP_append, hfc, hbc]
        | true =>
          cases hh : env.handle ev2 with
          | error e =>
            simp [hbr, hga, ht, hh, List.countP_append, List.countP_cons, hfc, hbc,
              isCommitA]
          | ok u2 =>
            cases u2
            cases hah : env.afterHandle with
            | none =>
              simp [hbr, hga, ht, hh, hah, List.countP_append, List.countP_cons,
                hfc, hbc, isCommitA]
            | some g =>
              cases hg : g ev2 with
              | error e =>
                simp [hbr, hga, ht, hh, hah, hg, List.countP_append,
                  List.countP_cons, hfc, hbc, isCommitA]
              | ok u3 =>
                cases u3
                simp [hbr, hga, ht, hh, hah, hg, List.countP_append,
                  List.countP_cons, hfc, hbc, isCommitA]

theorem handle_event_fst (env : ConsumerEnv) (ev : PyVal) :
    (handle_event env ev).1 = (handle_event_try env ev).1 := by
  unfold handle_event
  rcases h : handle_event_try env ev with ⟨tr, r⟩
  cases r <;> rfl

theorem handle_event_no_commit (env : ConsumerEnv) (ev : PyVal) :
    (handle_event env ev).1.countP isCommitA = 0 := by
  rw [handle_event_fst]; exact handle_event_try_no_commit env ev

theorem handle_event_ok_iff (env : ConsumerEnv) (ev : PyVal) (tr : List ConsAction) :
    handle_event env ev = (tr, Except.ok ()) ↔
      handle_event_try env ev = (tr, Except.ok ()) := by
  unfold handle_event
  rcases h : handle_event_try env ev with ⟨tr2, r⟩
  cases r with
  | error e => simp
  | ok u => cases u; simp

theorem handle_event_try_ok_shape (env : ConsumerEnv) (ev : PyVal)
    (tr : List ConsAction) (h : handle_event_try env ev = (tr, Except.ok ())) :
    ∃ ev2 atr,
      tr = List.replicate env.filters.length ConsAction.filterCall
             ++ beforeTrace env ++ [ConsAction.handlerCall ev2] ++ atr ∧
      (atr = [] ∨ atr = [ConsAction.afterCall]) := by
  rcases hfe : filter_event env.filters ev with ⟨ftr, fres⟩
  have hftr : fres = Except.ok () → ftr = List.replicate env.filters.length ConsAction.filterCall := by
    intro hok; exact filter_event_ok_trace env.filters ev ftr (by rw [hfe, hok])
  unfold handle_event_try at h
  rw [hfe] at h
  cases fres with
  | error e => simp at h
  | ok u =>
    cases u
    have hftr2 := hftr rfl
    cases hbr : beforeResult env ev with
    | error e => simp [hbr] at h
    | ok ev2 =>
      cases hga : pyGetAttr ev2 "event_type" with
      | error e => simp [hbr, hga] at h
      | ok et =>
        cases ht : pyTruthy et with
        | false => simp [hbr, hga, ht] at h
        | true =>
          cases hh : env.handle ev2 with
          | error e => simp [hbr, hga, ht, hh] at h
          | ok u2 =>
            cases u2
            cases hah : env.afterHandle with
            | none =>
              simp only [hbr, hga, ht, hh, hah, Bool.not_true, Bool.false_eq_true,
                if_false, Prod.mk.injEq] at h
              refine ⟨ev2, [], ?_, Or.inl rfl⟩
              rw [← h.1, hftr2]
              simp
            | some g =>
              cases hg : g ev2 with
              | error e => simp [hbr, hga, ht, hh, hah, hg] at h
              | ok u3 =>
                cases u3
                simp only [hbr, hga, ht, hh, hah, hg, Bool.not_true,
                  Bool.false_eq_true, if_false, Prod.mk.injEq] at h
                refine ⟨ev2, [ConsAction.afterCall], ?_, Or.inr rfl⟩
                rw [← h.1, hftr2]
                simp

theorem scan_batch_some (jsonLoads : String → Except String PyVal)
    (b : List (TopicPartition × List KRecord)) (tr : List ConsAction)
    (ev : ConsumedEvent) (h : scan_batch jsonLoads b = (tr, Option.some ev)) :
    tr = [ConsAction.decodeValue] := by
  induction b with
  | nil => simp [scan_batch] at h
  | cons hd rest ih =>
    rcases hd with ⟨tp, msgs⟩
    cases msgs with
    | nil =>
      rw [show scan_batch jsonLoads ((tp, []) :: rest) = scan_batch jsonLoads rest
          from rfl] at h
      exact ih h
    | cons r rs =>
      rw [scan_batch] at h
      cases hj : jsonLoads r.value with
      | error e => rw [hj] at h; simp at h
      | ok message => rw [hj] at h; simp at h; exact h.1.symm

theorem get_new_event_some (jsonLoads : String → Except String PyVal)
    (p : Except String (List (TopicPartition × List KRecord)))
    (gtr : List ConsAction) (ev : ConsumedEvent)
    (h : get_new_event jsonLoads p = (gtr, Option.some ev)) :
    gtr = [ConsAction.poll, ConsAction.decodeValue] := by
  cases p with
  | error e => simp [get_new_event] at h
  | ok batch =>
    cases hb : batch.isEmpty with
    | true => simp [get_new_event, hb] at h
    | false =>
      rw [get_new_event] at h
      rw [hb] at h
      rcases hs : scan_batch jsonLoads batch with ⟨str, r⟩
      rw [hs] at h
      cases r with
      | none => simp at h
      | some ev2 =>
        simp at h
        rw [← h.1, scan_batch_some jsonLoads batch str ev2 hs]

theorem filter_error_no_handler (env : ConsumerEnv) (ev : PyVal)
    (ftr : List ConsAction) (e : Exc)
    (h : filter_event env.filters ev = (ftr, Except.error e)) :
    (handle_event env ev).1.countP isHandlerA = 0 := by
  have hnh := filter_event_no_handler env.filters ev
  rw [h] at hnh
  rw [handle_event_fst]
  unfold handle_event_try
  rw [h]
  exact hnh

/-- The `else` clause of `listen` always raises the `AttributeError` for
the mangled mapper-service attribute, whatever the header and event are. -/
theorem persist_step_eq (hdr event_data : PyVal) :
    persist_step hdr event_data =
      ([], Except.error (attributeError mangledMapperAttr)) := rfl

/-- `listen` raises the `AttributeError` for the mangled started-flag
attribute at its first statement, for every consumer, decoder and poll
script: the loop is never entered. -/
theorem listen_always_raises (env : ConsumerEnv)
    (jsonLoads : String → Except String PyVal)
    (script : List (Except String (List (TopicPartition × List KRecord)))) :
    listen env jsonLoads script =
      ([], Option.some (attributeError mangledStartedAttr)) := rfl

/-!
Claim theorems.
-/

/-- C1 (code bug): the claimed commit-after-success behavior is what the
loop body aims at but the program cannot perform it.  `listen` raises
`AttributeError` on the mangled `_BackendKafkaConsumer__started` read at
its first statement (line 115), before any record is consumed; and the loop
body as written, evaluated at a concrete record whose handler completes
without raising, raises `AttributeError` on the mangled
`_BackendKafkaConsumer__event_root_mapper_service` read in the `try`
statement's `else` clause (line 150), escaping uncaught with zero commit
calls. -/
theorem c1_success_commit_unreachable :
    listen baseEnvW jsonW [pollW] =
      ([], Option.some (attributeError mangledStartedAttr)) ∧
    handle_event baseEnvW evW2 = ([ConsAction.handlerCall evW2], Except.ok ()) ∧
    listen_iteration baseEnvW jsonW pollW =
      ([ConsAction.poll, ConsAction.decodeValue, ConsAction.createHeader,
        ConsAction.handlerCall evW2],
       Option.some (attributeError mangledMapperAttr)) ∧
    (listen_iteration baseEnvW jsonW pollW).1.countP isCommitA = 0 :=
  ⟨rfl, rfl, rfl, rfl⟩

/-- C2 (code bug): the claimed propagate-critical-without-commit behavior of
`listen` is unreachable — `listen` raises `AttributeError` at entry (line
115) — while the loop body as written does promote an unclassified handler
exception to `CriticalException`, commits nothing and escapes with it,
evaluated at a concrete record. -/
theorem c2_critical_path_unreachable :
    listen { baseEnvW with handle := fun _ => Except.error (Exc.other "boom") }
        jsonW [pollW] =
      ([], Option.some (attributeError mangledStartedAttr)) ∧
    listen_iteration { baseEnvW with handle := fun _ => Except.error (Exc.other "boom") }
        jsonW pollW =
      ([ConsAction.poll, ConsAction.decodeValue, ConsAction.createHeader,
        ConsAction.handlerCall evW2],
       Option.some (Exc.critical "Unexpected error: boom")) ∧
    (listen_iteration { baseEnvW with handle := fun _ => Except.error (Exc.other "boom") }
        jsonW pollW).1.countP isCommitA = 0 ∧
    (listen_loop { baseEnvW with handle := fun _ => Except.error (Exc.other "boom") }
        jsonW (pollW :: [])).2 =
      Option.some (Exc.critical "Unexpected error: boom") :=
  ⟨rfl, rfl, rfl, rfl⟩

/-- C3 (code bug): the claimed commit-and-continue handling of skippable
failures is unreachable — `listen` raises `AttributeError` at entry (line
115) — while the loop body as written, at a concrete record whose handler
raises an explicit `SkippableException`, commits `offset + 1` on the
record's topic partition and continues with the next iteration. -/
theorem c3_skippable_path_unreachable :
    listen { baseEnvW with handle := fun _ => Except.error (Exc.skippable "duplicate") }
        jsonW [pollW] =
      ([], Option.some (attributeError mangledStartedAttr)) ∧
    listen_iteration { baseEnvW with handle := fun _ => Except.error (Exc.skippable "duplicate") }
        jsonW pollW =
      ([ConsAction.poll, ConsAction.decodeValue, ConsAction.createHeader,
        ConsAction.handlerCall evW2, ConsAction.commitCall tpW 42,
        ConsAction.logCommitted], Option.none) ∧
    (listen_iteration { baseEnvW with handle := fun _ => Except.error (Exc.skippable "duplicate") }
        jsonW pollW).1.filter isCommitA = [ConsAction.commitCall tpW 42] ∧
    (listen_loop { baseEnvW with handle := fun _ => Except.error (Exc.skippable "duplicate") }
        jsonW (pollW :: [])).2 =
      (listen_loop { baseEnvW with handle := fun _ => Except.error (Exc.skippable "duplicate") }
        jsonW []).2 :=
  ⟨rfl, rfl, rfl, rfl⟩

/-- C5 counterexample: a concrete loop-body iteration that reaches dispatch
with one configured filter.  The iteration decodes the trace headers
(`createHeader`, from `_create_header` in `listen`) strictly BEFORE the
filter chain runs (inside `_handle_event`), and no commit occurs at all,
refuting the claimed poll → decode → filter → trace → handle → commit
order. -/
theorem c5_counterexample :
    (listen_iteration oneFilterEnvW jsonW pollW).1 =
      [ConsAction.poll, ConsAction.decodeValue, ConsAction.createHeader,
       ConsAction.filterCall, ConsAction.handlerCall evW2] ∧
    (listen_iteration oneFilterEnvW jsonW pollW).1.countP isFilterA = 1 ∧
    (listen_iteration oneFilterEnvW jsonW pollW).1.countP isCreateHeaderA = 1 ∧
    (listen_iteration oneFilterEnvW jsonW pollW).1.findIdx isCreateHeaderA <
      (listen_iteration oneFilterEnvW jsonW pollW).1.findIdx isFilterA ∧
    (listen_iteration oneFilterEnvW jsonW pollW).1.countP isCommitA = 0 :=
  ⟨rfl, rfl, rfl, by decide, rfl⟩

/-- C5 (amended): in every loop-body iteration that reaches dispatch with a
successfully handled event, processing follows the per-iteration order
poll → decode → trace → filter → handle: the trace headers are decoded
BEFORE the filter chain is applied, and any filter may raise to reject the
event before it reaches the business handler.  No commit follows: the
iteration ends with the uncaught `AttributeError` from the mangled
attribute read in the `else` clause (line 150), and `listen` itself raises
`AttributeError` at entry (line 115) before any iteration can run. -/
theorem c5_iteration_order
    (env : ConsumerEnv) (jsonLoads : String → Except String PyVal)
    (p : Except String (List (TopicPartition × List KRecord)))
    (gtr htr : List ConsAction) (ev : ConsumedEvent) (hdr : PyVal)
    (hget : get_new_event jsonLoads p = (gtr, Option.some ev))
    (hch : create_header env.mongoConnected ev.headers = Except.ok hdr)
    (hhe : handle_event env ev.event = (htr, Except.ok ())) :
    (∃ ev2 atr,
      (listen_iteration env jsonLoads p).1 =
        [ConsAction.poll, ConsAction.decodeValue, ConsAction.createHeader]
          ++ List.replicate env.filters.length ConsAction.filterCall
          ++ beforeTrace env ++ [ConsAction.handlerCall ev2] ++ atr ∧
      (atr = [] ∨ atr = [ConsAction.afterCall])) ∧
    (listen_iteration env jsonLoads p).2 =
      Option.some (attributeError mangledMapperAttr) ∧
    (listen_iteration env jsonLoads p).1.countP isCommitA = 0 ∧
    (∀ ev3 ftr e, filter_event env.filters ev3 = (ftr, Except.error e) →
      (handle_event env ev3).1.countP isHandlerA = 0) ∧
    (∀ script, listen env jsonLoads script =
      ([], Option.some (attributeError mangledStartedAttr))) := by
  have htb : try_block env ev.event ev.headers =
      (ConsAction.createHeader :: htr, Except.ok hdr) := by
    unfold try_block; rw [hch, hhe]
  have hit : listen_iteration env jsonLoads p =
      (gtr ++ ConsAction.createHeader :: htr,
       Option.some (attributeError mangledMapperAttr)) := by
    unfold listen_iteration
    rw [hget]
    simp [htb, persist_step_eq]
  obtain ⟨ev2, atr, htreq, hatr⟩ :=
    handle_event_try_ok_shape env ev.event htr
      ((handle_event_ok_iff env ev.event htr).mp hhe)
  have hgtr := get_new_event_some jsonLoads p gtr ev hget
  refine ⟨⟨ev2, atr, ?_, hatr⟩, by rw [hit], ?_, ?_, ?_⟩
  · rw [hit, hgtr, htreq]
    simp [List.append_assoc]
  · rw [hit]
    have hnc := handle_event_no_commit env ev.event
    rw [hhe] at hnc
    rw [List.countP_append, hgtr]
    simp [List.countP_cons, isCommitA, hnc]
  · intro ev3 ftr e hfe
    exact filter_error_no_handler env ev3 ftr e hfe
  · intro script
    rfl

/-- C5 witness: the amended order at the concrete one-filter consumer. -/
theorem c5_witness :
    (∃ ev2 atr,
      (listen_iteration oneFilterEnvW jsonW pollW).1 =
        [ConsAction.poll, ConsAction.decodeValue, ConsAction.createHeader]
          ++ List.replicate oneFilterEnvW.filters.length ConsAction.filterCall
          ++ beforeTrace oneFilterEnvW ++ [ConsAction.handlerCall ev2] ++ atr ∧
      (atr = [] ∨ atr = [ConsAction.afterCall])) ∧
    (listen_iteration oneFilterEnvW jsonW pollW).2 =
      Option.some (attributeError mangledMapperAttr) ∧
    (listen_iteration oneFilterEnvW jsonW pollW).1.countP isCommitA = 0 ∧
    (∀ ev3 ftr e, filter_event oneFilterEnvW.filters ev3 = (ftr, Except.error e) →
      (handle_event oneFilterEnvW ev3).1.countP isHandlerA = 0) ∧
    (∀ script, listen oneFilterEnvW jsonW script =
      ([], Option.some (attributeError mangledStartedAttr))) :=
  c5_iteration_order oneFilterEnvW jsonW pollW
    [ConsAction.poll, ConsAction.decodeValue]
    [ConsAction.filterCall, ConsAction.handlerCall evW2]
    evW (PyVal.dict [("root_id", PyVal.str "r1")])
    (by rfl) (by rfl) (by rfl)

/-- C8 (code bug): `_get_new_event` behaves exactly as claimed — an
undecodable record value is logged and mapped to the empty result, and the
loop body as written sleeps briefly, commits nothing and continues; but the
program never reaches this: `listen` raises `AttributeError` at entry (line
115) before the first poll. -/
theorem c8_decode_failure_loop_unreachable :
    get_new_event jsonW pollBad =
      ([ConsAction.poll, ConsAction.logDecodeError "Expecting value"],
       Option.none) ∧
    listen_iteration baseEnvW jsonW pollBad =
      ([ConsAction.poll, ConsAction.logDecodeError "Expecting value",
        ConsAction.sleepShort], Option.none) ∧
    (listen_iteration baseEnvW jsonW pollBad).1.countP isCommitA = 0 ∧
    (listen_loop baseEnvW jsonW (pollBad :: [])).2 =
      (listen_loop baseEnvW jsonW []).2 ∧
    listen baseEnvW jsonW [pollBad] =
      ([], Option.some (attributeError mangledStartedAttr)) :=
  ⟨rfl, rfl, rfl, rfl, rfl⟩

/-- C9 (code bug): the poll step is total — every transport failure is
caught, logged and mapped to the empty result, indistinguishable from an
empty batch, and the loop body as written treats it as a debounce sleep
with no commit and no exception; but there is no loop level in the program:
`listen` raises `AttributeError` at entry (line 115) before the first
poll. -/
theorem c9_poll_error_total
    (env : ConsumerEnv) (jsonLoads : String → Except String PyVal) (m : String)
    (ps script : List (Except String (List (TopicPartition × List KRecord)))) :
    get_new_event jsonLoads (Except.error m) =
      ([ConsAction.poll, ConsAction.logPollError m], Option.none) ∧
    (get_new_event jsonLoads (Except.error m)).2 =
      (get_new_event jsonLoads (Except.ok [])).2 ∧
    listen_iteration env jsonLoads (Except.error m) =
      ([ConsAction.poll, ConsAction.logPollError m, ConsAction.sleepShort],
       Option.none) ∧
    (listen_loop env jsonLoads (Except.error m :: ps)).2 =
      (listen_loop env jsonLoads ps).2 ∧
    listen env jsonLoads script =
      ([], Option.some (attributeError mangledStartedAttr)) := by
  have hit : listen_iteration env jsonLoads (Except.error m) =
      ([ConsAction.poll, ConsAction.logPollError m, ConsAction.sleepShort],
       Option.none) := rfl
  exact ⟨rfl, rfl, hit, by rw [listen_loop, hit], rfl⟩

/-- C10 (code bug): the `_handle_event` half of the claim is real — a dict
event with no `event_type` key raises `InvalidMessageException` before the
business handler (zero handler calls in the trace), and the loop body as
written would commit and discard it — but no event ever reaches
`_handle_event` in the program: `listen` raises `AttributeError` at entry
(line 115). -/
theorem c10_missing_event_type_unreachable :
    handle_event { baseEnvW with beforeHandle := Option.some (fun e => Except.ok e) }
        (PyVal.dict [("payload", PyVal.dict [])]) =
      ([ConsAction.beforeCall],
       Except.error (Exc.invalidMessage "Missing event_type in message")) ∧
    (handle_event { baseEnvW with beforeHandle := Option.some (fun e => Except.ok e) }
        (PyVal.dict [("payload", PyVal.dict [])])).1.countP isHandlerA = 0 ∧
    listen_iteration { baseEnvW with beforeHandle := Option.some (fun e => Except.ok e) }
        (fun s => if s = "m1" then Except.ok (PyVal.dict [("payload", PyVal.dict [])])
                  else Except.error "Expecting value")
        pollW =
      ([ConsAction.poll, ConsAction.decodeValue, ConsAction.createHeader,
        ConsAction.beforeCall, ConsAction.commitCall tpW 42,
        ConsAction.logCommitted], Option.none) ∧
    (listen_iteration { baseEnvW with beforeHandle := Option.some (fun e => Except.ok e) }
        (fun s => if s = "m1" then Except.ok (PyVal.dict [("payload", PyVal.dict [])])
                  else Except.error "Expecting value")
        pollW).1.filter isCommitA = [ConsAction.commitCall tpW 42] ∧
    listen { baseEnvW with beforeHandle := Option.some (fun e => Except.ok e) }
        (fun s => if s = "m1" then Except.ok (PyVal.dict [("payload", PyVal.dict [])])
                  else Except.error "Expecting value")
        [pollW] =
      ([], Option.some (attributeError mangledStartedAttr)) :=
  ⟨rfl, rfl, rfl, rfl, rfl⟩

theorem publish_loop_step_ok
    (send : Nat → SendOutcome) (dumps : Envelope → Except String String)
    (et : String) (pl : PyVal) (ia : Nat) (key : Option String)
    (maxRetry delay attempt retryCount : Nat) (pn o : Nat) (v : String)
    (hok : send attempt = SendOutcome.ok pn o)
    (hdumps : dumps (buildEnvelope et pl ia) = Except.ok v) :
    publish_loop send dumps et pl ia key maxRetry delay attempt retryCount =
      ([ProdAction.send (buildEnvelope et pl ia) (keyFormatted key)],
       Except.ok ()) := by
  conv_lhs => rw [publish_loop]
  simp only [hdumps, hok]

theorem publish_loop_base_transient
    (send : Nat → SendOutcome) (dumps : Envelope → Except String String)
    (et : String) (pl : PyVal) (ia : Nat) (key : Option String)
    (maxRetry delay attempt retryCount : Nat) (e : String) (v : String)
    (he : send attempt = SendOutcome.transientErr e)
    (hdumps : dumps (buildEnvelope et pl ia) = Except.ok v)
    (hge : maxRetry ≤ retryCount) :
    publish_loop send dumps et pl ia key maxRetry delay attempt retryCount =
      ([ProdAction.send (buildEnvelope et pl ia) (keyFormatted key)],
       Except.error (PublishError.publishFailed
         ("Failed to send message after retries: " ++ e))) := by
  conv_lhs => rw [publish_loop]
  simp only [hdumps, he]
  rw [dif_pos hge]

theorem publish_loop_step_transient
    (send : Nat → SendOutcome) (dumps : Envelope → Except String String)
    (et : String) (pl : PyVal) (ia : Nat) (key : Option String)
    (maxRetry delay attempt retryCount : Nat) (e : String) (v : String)
    (he : send attempt = SendOutcome.transientErr e)
    (hdumps : dumps (buildEnvelope et pl ia) = Except.ok v)
    (hlt : retryCount < maxRetry) :
    publish_loop send dumps et pl ia key maxRetry delay attempt retryCount =
      (ProdAction.send (buildEnvelope et pl ia) (keyFormatted key)
         :: ProdAction.sleepRetry delay
         :: (publish_loop send dumps et pl ia key maxRetry delay
              (attempt + 1) (retryCount + 1)).1,
       (publish_loop send dumps et pl ia key maxRetry delay
         (attempt + 1) (retryCount + 1)).2) := by
  conv_lhs => rw [publish_loop]
  simp only [hdumps, he]
  rw [dif_neg (by omega)]

theorem publish_loop_all_transient
    (send : Nat → SendOutcome) (dumps : Envelope → Except String String)
    (et : String) (pl : PyVal) (ia : Nat) (key : Option String)
    (maxRetry delay : Nat) (v : String)
    (hsend : ∀ n, ∃ e, send n = SendOutcome.transientErr e)
    (hdumps : dumps (buildEnvelope et pl ia) = Except.ok v) :
    ∀ d attempt retryCount, maxRetry - retryCount = d →
      (publish_loop send dumps et pl ia key maxRetry delay attempt retryCount).1.countP
          isSendA = d + 1 ∧
      (publish_loop send dumps et pl ia key maxRetry delay attempt retryCount).1.countP
          isSleepRetryA = d ∧
      ∃ m, (publish_loop send dumps et pl ia key maxRetry delay attempt retryCount).2 =
        Except.error (PublishError.publishFailed m) := by
  intro d
  induction d with
  | zero =>
    intro attempt rc hd
    obtain ⟨e, he⟩ := hsend attempt
    rw [publish_loop_base_transient send dumps et pl ia key maxRetry delay attempt rc
      e v he hdumps (by omega)]
    refine ⟨by rfl, by rfl, ⟨_, rfl⟩⟩
  | succ dd ih =>
    intro attempt rc hd
    obtain ⟨e, he⟩ := hsend attempt
    rw [publish_loop_step_transient send dumps et pl ia key maxRetry delay attempt rc
      e v he hdumps (by omega)]
    obtain ⟨h1, h2, m, h3⟩ := ih (attempt + 1) (rc + 1) (by omega)
    refine ⟨?_, ?_, ⟨m, h3⟩⟩
    · simp only [List.countP_cons, h1]
      simp [isSendA, isSleepRetryA]
    · simp only [List.countP_cons, h2]
      simp [isSendA, isSleepRetryA]

/-- C4 counterexample: with `max_retry = 1` and a backend that always fails
transiently, `publish` performs 2 send attempts (the initial attempt plus
one retry) before raising — not 1 (= max_retries) as claimed. -/
theorem c4_counterexample :
    (publish (fun _ => SendOutcome.transientErr "timeout")
        (fun _ => Except.ok "serialized") "user.created" (PyVal.dict [])
        Option.none Option.none 0 1 5).1.countP isSendA = 2 ∧
    ¬ ((publish (fun _ => SendOutcome.transientErr "timeout")
        (fun _ => Except.ok "serialized") "user.created" (PyVal.dict [])
        Option.none Option.none 0 1 5).1.countP isSendA = 1) ∧
    ∃ m, (publish (fun _ => SendOutcome.transientErr "timeout")
        (fun _ => Except.ok "serialized") "user.created" (PyVal.dict [])
        Option.none Option.none 0 1 5).2 =
      Except.error (PublishError.publishFailed m) := by
  obtain ⟨h1, h2, m, h3⟩ :=
    publish_loop_all_transient (fun _ => SendOutcome.transientErr "timeout")
      (fun _ => Except.ok "serialized") "user.created" (PyVal.dict [])
      (issuedOf Option.none 0) Option.none 1 5 "serialized"
      (fun _ => ⟨"timeout", rfl⟩) rfl 1 0 0 rfl
  refine ⟨h1, ?_, ⟨m, h3⟩⟩
  intro hc
  unfold publish at hc
  rw [h1] at hc
  omega

/-- C4 (amended): for every call to `publish` where every send attempt fails
with a transient transport error, `publish` raises the terminal
`KafkaPublishMessageFailed` failure exactly once, after exactly
`max_retries + 1` send attempts (the initial attempt plus `max_retries`
retries), with `max_retries` fixed-delay backoff sleeps in between. -/
theorem c4_publish_always_transient
    (send : Nat → SendOutcome) (dumps : Envelope → Except String String)
    (et : String) (pl : PyVal) (key : Option String) (ia : Option Nat)
    (now maxRetry delay : Nat) (v : String)
    (hsend : ∀ n, ∃ e, send n = SendOutcome.transientErr e)
    (hdumps : dumps (buildEnvelope et pl (issuedOf ia now)) = Except.ok v) :
    (publish send dumps et pl key ia now maxRetry delay).1.countP isSendA =
      maxRetry + 1 ∧
    (publish send dumps et pl key ia now maxRetry delay).1.countP isSleepRetryA =
      maxRetry ∧
    ∃ m, (publish send dumps et pl key ia now maxRetry delay).2 =
      Except.error (PublishError.publishFailed m) := by
  have h := publish_loop_all_transient send dumps et pl (issuedOf ia now) key
    maxRetry delay v hsend hdumps maxRetry 0 0 (by omega)
  exact h

/-- C4 witness: a concrete always-transient backend with `max_retry = 3`
gives 4 send attempts, 3 sleeps and exactly one terminal failure. -/
theorem c4_witness :
    (publish (fun _ => SendOutcome.transientErr "conn reset")
        (fun _ => Except.ok "serialized") "evt" (PyVal.dict [])
        (Option.some "k1") Option.none 7 3 2).1.countP isSendA = 3 + 1 ∧
    (publish (fun _ => SendOutcome.transientErr "conn reset")
        (fun _ => Except.ok "serialized") "evt" (PyVal.dict [])
        (Option.some "k1") Option.none 7 3 2).1.countP isSleepRetryA = 3 ∧
    ∃ m, (publish (fun _ => SendOutcome.transientErr "conn reset")
        (fun _ => Except.ok "serialized") "evt" (PyVal.dict [])
        (Option.some "k1") Option.none 7 3 2).2 =
      Except.error (PublishError.publishFailed m) :=
  c4_publish_always_transient (fun _ => SendOutcome.transientErr "conn reset")
    (fun _ => Except.ok "serialized") "evt" (PyVal.dict [])
    (Option.some "k1") Option.none 7 3 2 "serialized"
    (fun _ => ⟨"conn reset", rfl⟩) rfl

theorem publish_loop_transient_then_ok
    (send : Nat → SendOutcome) (dumps : Envelope → Except String String)
    (et : String) (pl : PyVal) (ia : Nat) (key : Option String)
    (maxRetry delay : Nat) (v : String)
    (hdumps : dumps (buildEnvelope et pl ia) = Except.ok v) :
    ∀ N attempt retryCount,
      (∀ i, i < N → ∃ e, send (attempt + i) = SendOutcome.transientErr e) →
      (∃ pn o, send (attempt + N) = SendOutcome.ok pn o) →
      retryCount + N ≤ maxRetry →
      (publish_loop send dumps et pl ia key maxRetry delay attempt retryCount).1.filter
          isSendA =
        List.replicate (N + 1)
          (ProdAction.send (buildEnvelope et pl ia) (keyFormatted key)) ∧
      (publish_loop send dumps et pl ia key maxRetry delay attempt retryCount).1.filter
          isSleepRetryA =
        List.replicate N (ProdAction.sleepRetry delay) ∧
      (publish_loop send dumps et pl ia key maxRetry delay attempt retryCount).2 =
        Except.ok () := by
  intro N
  induction N with
  | zero =>
    intro attempt rc hfail hok hle
    obtain ⟨pn, o, hsend0⟩ := hok
    rw [Nat.add_zero] at hsend0
    rw [publish_loop_step_ok send dumps et pl ia key maxRetry delay attempt rc
      pn o v hsend0 hdumps]
    refine ⟨?_, ?_, rfl⟩
    · simp [List.filter, isSendA]
    · simp [List.filter, isSleepRetryA]
  | succ NN ih =>
    intro attempt rc hfail hok hle
    obtain ⟨e, he⟩ := hfail 0 (by omega)
    rw [Nat.add_zero] at he
    rw [publish_loop_step_transient send dumps et pl ia key maxRetry delay attempt rc
      e v he hdumps (by omega)]
    have hfail2 : ∀ i, i < NN → ∃ e2, send (attempt + 1 + i) = SendOutcome.transientErr e2 := by
      intro i hi
      have h := hfail (i + 1) (by omega)
      rw [show attempt + (i + 1) = attempt + 1 + i from by omega] at h
      exact h
    have hok2 : ∃ pn o, send (attempt + 1 + NN) = SendOutcome.ok pn o := by
      obtain ⟨pn, o, h⟩ := hok
      rw [show attempt + (NN + 1) = attempt + 1 + NN from by omega] at h
      exact ⟨pn, o, h⟩
    obtain ⟨h1, h2, h3⟩ := ih (attempt + 1) (rc + 1) hfail2 hok2 (by omega)
    refine ⟨?_, ?_, h3⟩
    · rw [List.filter_cons, List.filter_cons]
      simp only [h1]
      simp [isSendA, isSleepRetryA, List.replicate_succ]
    · rw [List.filter_cons, List.filter_cons]
      simp only [h2]
      simp [isSendA, isSleepRetryA, List.replicate_succ]

/-- C6: for every call to `publish` against a backend that fails with a
transient transport error exactly N times and then succeeds, with
N < max_retries, `publish` returns success; the backoff sleep runs exactly N
times, each with the same fixed delay, and every send attempt (the initial
one and every retry) carries the same envelope — same `event_type`, same
`payload` and the `issued_at` fixed at call entry — and the same key. -/
theorem c6_publish_transient_then_success
    (send : Nat → SendOutcome) (dumps : Envelope → Except String String)
    (et : String) (pl : PyVal) (key : Option String) (ia : Option Nat)
    (now maxRetry delay N : Nat) (v : String)
    (hfail : ∀ i, i < N → ∃ e, send i = SendOutcome.transientErr e)
    (hok : ∃ pn o, send N = SendOutcome.ok pn o)
    (hN : N < maxRetry)
    (hdumps : dumps (buildEnvelope et pl (issuedOf ia now)) = Except.ok v) :
    (publish send dumps et pl key ia now maxRetry delay).2 = Except.ok () ∧
    (publish send dumps et pl key ia now maxRetry delay).1.filter isSendA =
      List.replicate (N + 1)
        (ProdAction.send (buildEnvelope et pl (issuedOf ia now)) (keyFormatted key)) ∧
    (publish send dumps et pl key ia now maxRetry delay).1.filter isSleepRetryA =
      List.replicate N (ProdAction.sleepRetry delay) := by
  have hfail2 : ∀ i, i < N → ∃ e, send (0 + i) = SendOutcome.transientErr e := by
    intro i hi
    rw [Nat.zero_add]
    exact hfail i hi
  have hok2 : ∃ pn o, send (0 + N) = SendOutcome.ok pn o := by
    rw [Nat.zero_add]; exact hok
  obtain ⟨h1, h2, h3⟩ :=
    publish_loop_transient_then_ok send dumps et pl (issuedOf ia now) key
      maxRetry delay v hdumps N 0 0 hfail2 hok2 (by omega)
  exact ⟨h3, h1, h2⟩

/-- C6 witness: a backend failing once then succeeding, with
`max_retry = 2`: one fixed-delay sleep, two sends of the identical envelope,
and success. -/
theorem c6_witness :
    (publish (fun n => if n = 0 then SendOutcome.transientErr "t" else SendOutcome.ok 0 5)
        (fun _ => Except.ok "serialized") "user.created"
        (PyVal.dict [("id", PyVal.str "u1")]) (Option.some "u1")
        Option.none 99 2 3).2 = Except.ok () ∧
    (publish (fun n => if n = 0 then SendOutcome.transientErr "t" else SendOutcome.ok 0 5)
        (fun _ => Except.ok "serialized") "user.created"
        (PyVal.dict [("id", PyVal.str "u1")]) (Option.some "u1")
        Option.none 99 2 3).1.filter isSendA =
      List.replicate (1 + 1)
        (ProdAction.send
          (buildEnvelope "user.created" (PyVal.dict [("id", PyVal.str "u1")])
            (issuedOf Option.none 99))
          (keyFormatted (Option.some "u1"))) ∧
    (publish (fun n => if n = 0 then SendOutcome.transientErr "t" else SendOutcome.ok 0 5)
        (fun _ => Except.ok "serialized") "user.created"
        (PyVal.dict [("id", PyVal.str "u1")]) (Option.some "u1")
        Option.none 99 2 3).1.filter isSleepRetryA =
      List.replicate 1 (ProdAction.sleepRetry 3) :=
  c6_publish_transient_then_success
    (fun n => if n = 0 then SendOutcome.transientErr "t" else SendOutcome.ok 0 5)
    (fun _ => Except.ok "serialized") "user.created"
    (PyVal.dict [("id", PyVal.str "u1")]) (Option.some "u1") Option.none
    99 2 3 1 "serialized"
    (by
      intro i hi
      have h0 : i = 0 := by omega
      subst h0
      exact ⟨"t", rfl⟩)
    ⟨0, 5, rfl⟩ (by omega) rfl

theorem execute_command_loop_step
    (run : List String → Nat → CmdOutcome) (args : List String)
    (maxRetries attempt retryCount : Nat) (e : String)
    (he : run args attempt = CmdOutcome.redisErr e)
    (hle : retryCount + 1 ≤ maxRetries) :
    execute_command_loop run args maxRetries attempt retryCount =
      (CacheAction.call args attempt
         :: CacheAction.sleepBackoff (2 ^ (retryCount + 1 - 1))
         :: (execute_command_loop run args maxRetries (attempt + 1) (retryCount + 1)).1,
       (execute_command_loop run args maxRetries (attempt + 1) (retryCount + 1)).2) := by
  conv_lhs => rw [execute_command_loop]
  simp only [he]
  rw [dif_neg (by omega)]

theorem execute_command_loop_exhaust
    (run : List String → Nat → CmdOutcome) (args : List String)
    (maxRetries attempt retryCount : Nat) (e : String)
    (he : run args attempt = CmdOutcome.redisErr e)
    (hgt : maxRetries < retryCount + 1) :
    execute_command_loop run args maxRetries attempt retryCount =
      ([CacheAction.call args attempt], Except.ok (PyVal.bool false)) := by
  conv_lhs => rw [execute_command_loop]
  simp only [he]
  rw [dif_pos hgt]

/-- C7: a cache `get` whose underlying command raises a transient redis
error on every attempt returns the sentinel `False` — it does not raise —
after the initial call plus `max_retries = 3` retries, and the sleep before
retry attempt k lasts `2 ^ (k - 1)` time units: 1, 2 and 4. -/
theorem c7_cache_returns_sentinel
    (run : List String → Nat → CmdOutcome) (key : String)
    (hrun : ∀ n, ∃ e, run ["GET", key] n = CmdOutcome.redisErr e) :
    cache_get run key =
      ([CacheAction.call ["GET", key] 0, CacheAction.sleepBackoff 1,
        CacheAction.call ["GET", key] 1, CacheAction.sleepBackoff 2,
        CacheAction.call ["GET", key] 2, CacheAction.sleepBackoff 4,
        CacheAction.call ["GET", key] 3],
       Except.ok (PyVal.bool false)) := by
  obtain ⟨e0, h0⟩ := hrun 0
  obtain ⟨e1, h1⟩ := hrun 1
  obtain ⟨e2, h2⟩ := hrun 2
  obtain ⟨e3, h3⟩ := hrun 3
  unfold cache_get execute_command
  rw [execute_command_loop_step run ["GET", key] RetryingRedis_maxRetries 0 0
    e0 h0 (by decide)]
  rw [execute_command_loop_step run ["GET", key] RetryingRedis_maxRetries 1 1
    e1 h1 (by decide)]
  rw [execute_command_loop_step run ["GET", key] RetryingRedis_maxRetries 2 2
    e2 h2 (by decide)]
  rw [execute_command_loop_exhaust run ["GET", key] RetryingRedis_maxRetries 3 3
    e3 h3 (by decide)]
  norm_num

/-- C7 witness: a concrete always-failing redis backend makes `get` return
the sentinel `False` after the initial call, three retries and backoff
sleeps of 1, 2 and 4 time units. -/
theorem c7_witness :
    cache_get (fun _ _ => CmdOutcome.redisErr "connection refused") "user:u1" =
      ([CacheAction.call ["GET", "user:u1"] 0, CacheAction.sleepBackoff 1,
        CacheAction.call ["GET", "user:u1"] 1, CacheAction.sleepBackoff 2,
        CacheAction.call ["GET", "user:u1"] 2, CacheAction.sleepBackoff 4,
        CacheAction.call ["GET", "user:u1"] 3],
       Except.ok (PyVal.bool false)) :=
  c7_cache_returns_sentinel (fun _ _ => CmdOutcome.redisErr "connection refused")
    "user:u1" (fun _ => ⟨"connection refused", rfl⟩)
